import Mathlib

/-!
Verification development for the manheim-scraper repository.

Shallow embedding of:
- src/models/schemas.py   (pydantic field validators, record construction)
- src/scraper/storage.py  (keyed upserts, queries, run lifecycle)
- src/scraper/extractor.py (HTML windowing, model-response cleaning)
- src/main.py             (the run-driving coroutine of the `search` command)

Python strings are modelled as `List Char`; machine-level timestamps as `Nat`
passed explicitly (the code reads `datetime.utcnow()` / SQL `NOW()` at call
time); nullable SQL columns and Python `Optional` fields as `Option`.
-/

set_option maxHeartbeats 1000000
set_option maxRecDepth 16000

namespace ManheimScraper

/-! ### Python string primitives used by the code under verification -/

/-- ASCII whitespace recognised by Python `str.strip()` (space, tab, newline,
carriage return, vertical tab, form feed). -/
def pyWsChar (c : Char) : Bool :=
  c = ' ' || c = '\t' || c = '\n' || c = '\r' || c = Char.ofNat 11 || c = Char.ofNat 12

/-- Remove trailing whitespace (the right half of Python `str.strip()`). -/
def pyStripRight : List Char → List Char
  | [] => []
  | c :: cs =>
    match pyStripRight cs with
    | [] => if pyWsChar c then [] else [c]
    | l => c :: l

/-- Python `str.strip()`: drop leading and trailing whitespace. -/
def pyStrip (s : List Char) : List Char :=
  pyStripRight (s.dropWhile pyWsChar)

/-- Python `str.upper()` on the ASCII range. -/
def pyUpper (s : List Char) : List Char :=
  s.map Char.toUpper

/-- Python `str.lower()` on the ASCII range. -/
def pyLower (s : List Char) : List Char :=
  s.map Char.toLower

/-- Python `str.split("\n")`. -/
def splitNl : List Char → List (List Char)
  | [] => [[]]
  | c :: cs =>
    if c = '\n' then [] :: splitNl cs
    else
      match splitNl cs with
      | [] => [[c]]
      | l :: ls => (c :: l) :: ls

/-- Python `"\n".join(lines)`. -/
def joinNl : List (List Char) → List Char
  | [] => []
  | [l] => l
  | l :: l2 :: ls => l ++ '\n' :: joinNl (l2 :: ls)

/-- First index at which `needle` occurs in the list (Python `str.find`,
with `none` playing the role of `-1`). -/
def findSub (needle : List Char) : List Char → Option Nat
  | [] => if needle.isPrefixOf ([] : List Char) then some 0 else none
  | c :: t =>
    if needle.isPrefixOf (c :: t) then some 0
    else (findSub needle t).map (· + 1)

/-- Highest index at which character `c` occurs (Python `str.rfind` for a
single-character needle, with `none` for `-1`). -/
def lastIdxOf (c : Char) : List Char → Option Nat
  | [] => none
  | x :: xs =>
    match lastIdxOf c xs with
    | some i => some (i + 1)
    | none => if x = c then some 0 else none

/-! ### src/models/schemas.py -/

/-- The character class of the VIN regex `[A-HJ-NPR-Z0-9]` in
`CarDetail.validate_vin` (schemas.py line 81), written over code points. -/
def isVinChar (c : Char) : Bool :=
  let n := c.toNat
  (65 ≤ n && n ≤ 72) || (74 ≤ n && n ≤ 78) || n = 80 || (82 ≤ n && n ≤ 90) ||
    (48 ≤ n && n ≤ 57)

/-- Embeds `CarDetail.validate_vin` (schemas.py lines 75-83): strip and upper-case,
then require exactly 17 characters of the VIN alphabet; otherwise null the
field. -/
def validate_vin : Option (List Char) → Option (List Char)
  | none => none
  | some v =>
    let v := pyUpper (pyStrip v)
    if v.length = 17 && v.all isVinChar then some v else none

/-- The VIN alphabet as the specification states it: letters `A`-`Z` except
`I`, `O`, `Q`, plus digits `0`-`9`.  Used only to compare the regex character set of the code
against the wording of the spec. -/
def specVinChar (c : Char) : Bool :=
  (('A'.toNat ≤ c.toNat && c.toNat ≤ 'Z'.toNat) &&
    !(c.toNat = 'I'.toNat || c.toNat = 'O'.toNat || c.toNat = 'Q'.toNat)) ||
  ('0'.toNat ≤ c.toNat && c.toNat ≤ '9'.toNat)

/-- Embeds `SearchCriteria.validate_year` (schemas.py lines 16-21): out-of-range
year bounds raise a `ValueError`, modelled as `Except.error`.
`cy` is `datetime.now().year` at validation time. -/
def SearchCriteria.validate_year (cy : Int) : Option Int → Except String (Option Int)
  | none => .ok none
  | some v =>
    if v < 1900 ∨ v > cy + 1 then
      .error ("Year must be between 1900 and " ++ toString (cy + 1))
    else .ok (some v)

/-- Embeds the `validate_positive` validator (schemas.py lines 23-28). -/
def validate_positive : Option Int → Except String (Option Int)
  | none => .ok none
  | some v =>
    if v < 0 then .error "Value must be non-negative" else .ok (some v)

structure SearchCriteria where
  make : String
  model : Option String
  year_min : Option Int
  year_max : Option Int
  max_miles : Option Int
  max_price : Option Int
deriving DecidableEq

/-- Pydantic construction of `SearchCriteria` (schemas.py lines 7-28): each
field validator runs and a raised `ValueError` aborts construction. -/
def mkSearchCriteria (cy : Int) (make : String) (model : Option String)
    (year_min year_max max_miles max_price : Option Int) :
    Except String SearchCriteria := do
  let ymin ← SearchCriteria.validate_year cy year_min
  let ymax ← SearchCriteria.validate_year cy year_max
  let mm ← validate_positive max_miles
  let mp ← validate_positive max_price
  pure ⟨make, model, ymin, ymax, mm, mp⟩

structure CarListing where
  id : String
  source_site : String
  url : Option String
  year : Option Int
  make : Option String
  model : Option String
  trim : Option String
  miles : Option Int
  current_bid : Option Int
  buy_now_price : Option Int
  condition : Option String
  damage_type : Option String
  secondary_damage : Option String
  location : Option String
  sale_date : Option Nat
  thumbnail_url : Option String
  scraped_at : Nat
deriving DecidableEq

/-- Embeds `CarListing.validate_year` (schemas.py lines 51-56): an out-of-range year
is nulled rather than failing the record. -/
def CarListing.validate_year (cy : Int) : Option Int → Option Int
  | none => none
  | some v => if v < 1900 ∨ v > cy + 1 then none else some v

/-- Pydantic construction of `CarListing`: the `year` field validator runs,
all other fields are stored as given (the record itself is kept). -/
def mkCarListing (cy : Int) (r : CarListing) : CarListing :=
  { r with year := CarListing.validate_year cy r.year }

/-! ### src/scraper/storage.py -/

/-- A row of `scraper.listings` (storage.py lines 45-66); primary key
`(source_site, id)`. -/
structure ListingRow where
  id : String
  source_site : String
  vin : Option String
  url : Option String
  year : Option Int
  make : Option String
  model : Option String
  trim : Option String
  miles : Option Int
  current_bid : Option Int
  buy_now_price : Option Int
  condition : Option String
  damage_type : Option String
  secondary_damage : Option String
  location : Option String
  sale_date : Option Nat
  thumbnail_url : Option String
  scraped_at : Nat
  updated_at : Nat
deriving DecidableEq

/-- The attribute bundle `upsert_listing` reads from its argument
(storage.py lines 139-156).  In the source this is a `CarDetail`; the plain
`CarListing` lacks the `vin` attribute (see the dynamic model below). -/
structure ListingInput where
  id : String
  source_site : String
  vin : Option String
  url : Option String
  year : Option Int
  make : Option String
  model : Option String
  trim : Option String
  miles : Option Int
  current_bid : Option Int
  buy_now_price : Option Int
  condition : Option String
  damage_type : Option String
  secondary_damage : Option String
  location : Option String
  sale_date : Option Nat
  thumbnail_url : Option String
deriving DecidableEq

/-- The `ON CONFLICT (source_site, id)` key comparison. -/
def keyMatch (r : ListingInput) (row : ListingRow) : Bool :=
  row.source_site == r.source_site && row.id == r.id

/-- The INSERT arm of `upsert_listing` (storage.py lines 124-130):
`scraped_at` and `updated_at` are both the `datetime.utcnow()` of the caller. -/
def newListingRow (now : Nat) (r : ListingInput) : ListingRow :=
  { id := r.id, source_site := r.source_site, vin := r.vin, url := r.url,
    year := r.year, make := r.make, model := r.model, trim := r.trim,
    miles := r.miles, current_bid := r.current_bid,
    buy_now_price := r.buy_now_price, condition := r.condition,
    damage_type := r.damage_type, secondary_damage := r.secondary_damage,
    location := r.location, sale_date := r.sale_date,
    thumbnail_url := r.thumbnail_url, scraped_at := now, updated_at := now }

/-- The `DO UPDATE SET` arm of `upsert_listing` (storage.py lines 131-137):
only `vin`, `url`, `current_bid`, `buy_now_price` and `sale_date` are
COALESCE-merged; `updated_at` is refreshed; every other column of the
existing row is left untouched. -/
def mergeListingRow (now : Nat) (r : ListingInput) (old : ListingRow) : ListingRow :=
  { old with
    vin := r.vin.or old.vin,
    url := r.url.or old.url,
    current_bid := r.current_bid.or old.current_bid,
    buy_now_price := r.buy_now_price.or old.buy_now_price,
    sale_date := r.sale_date.or old.sale_date,
    updated_at := now }

/-- Embeds `Storage.upsert_listing` (storage.py lines 121-157) acting on the
`scraper.listings` relation. -/
def upsertListing (now : Nat) (r : ListingInput) (db : List ListingRow) :
    List ListingRow :=
  if db.any (keyMatch r) then
    db.map (fun row => if keyMatch r row then mergeListingRow now r row else row)
  else
    db ++ [newListingRow now r]

/-- A row of `scraper.details` (storage.py lines 69-86); primary key `vin`. -/
structure DetailRow where
  vin : String
  id : Option String
  source_site : Option String
  engine : Option String
  transmission : Option String
  drive_type : Option String
  fuel_type : Option String
  color : Option String
  interior_color : Option String
  keys : Option String
  airbags : Option String
  seller : Option String
  title_type : Option String
  images : Option (List String)
  description : Option String
  scraped_at : Nat
deriving DecidableEq

/-- The attribute bundle `upsert_detail` reads from a `CarDetail`
(storage.py lines 198-213): the listing attributes plus the detail ones. -/
structure DetailInput extends ListingInput where
  engine : Option String
  transmission : Option String
  drive_type : Option String
  fuel_type : Option String
  color : Option String
  interior_color : Option String
  keys : Option String
  airbags : Option String
  seller : Option String
  title_type : Option String
  images : List String
  description : Option String
deriving DecidableEq

/-- INSERT arm of the details upsert (storage.py lines 176-180). -/
def newDetailRow (now : Nat) (vin : String) (d : DetailInput) : DetailRow :=
  { vin := vin, id := some d.id, source_site := some d.source_site,
    engine := d.engine, transmission := d.transmission,
    drive_type := d.drive_type, fuel_type := d.fuel_type, color := d.color,
    interior_color := d.interior_color, keys := d.keys, airbags := d.airbags,
    seller := d.seller, title_type := d.title_type, images := some d.images,
    description := d.description, scraped_at := now }

/-- The `ON CONFLICT (vin) DO UPDATE` arm of the details upsert (storage.py
lines 181-196): every column COALESCE-merged, `scraped_at` refreshed. -/
def mergeDetailRow (now : Nat) (d : DetailInput) (old : DetailRow) : DetailRow :=
  { old with
    id := (some d.id).or old.id,
    source_site := (some d.source_site).or old.source_site,
    engine := d.engine.or old.engine,
    transmission := d.transmission.or old.transmission,
    drive_type := d.drive_type.or old.drive_type,
    fuel_type := d.fuel_type.or old.fuel_type,
    color := d.color.or old.color,
    interior_color := d.interior_color.or old.interior_color,
    keys := d.keys.or old.keys,
    airbags := d.airbags.or old.airbags,
    seller := d.seller.or old.seller,
    title_type := d.title_type.or old.title_type,
    images := (some d.images).or old.images,
    description := d.description.or old.description,
    scraped_at := now }

/-- The keyed write to `scraper.details`. -/
def upsertDetailRow (now : Nat) (vin : String) (d : DetailInput)
    (db : List DetailRow) : List DetailRow :=
  if db.any (fun row => row.vin == vin) then
    db.map (fun row => if row.vin == vin then mergeDetailRow now d row else row)
  else
    db ++ [newDetailRow now vin d]

/-- The persistent state touched by the storage operations under test:
the two relations plus a count of emitted "Skipping detail" messages
(the `print` at storage.py line 171). -/
structure StorageState where
  listings : List ListingRow
  details : List DetailRow
  skipMsgs : Nat
deriving DecidableEq

/-- Embeds `Storage.upsert_detail` (storage.py lines 164-214): first upserts the
listing row unconditionally, then skips with a message when the VIN is
falsy (`None` or empty), otherwise writes the details relation. -/
def upsertDetail (now : Nat) (d : DetailInput) (st : StorageState) : StorageState :=
  let st1 := { st with listings := upsertListing now d.toListingInput st.listings }
  match d.vin with
  | none => { st1 with skipMsgs := st1.skipMsgs + 1 }
  | some v =>
    if v.isEmpty then { st1 with skipMsgs := st1.skipMsgs + 1 }
    else { st1 with details := upsertDetailRow now v d st1.details }

/-- Insertion step of sorting by `scraped_at` descending
(`ORDER BY l.scraped_at DESC`, storage.py line 268). -/
def insertByScrapedDesc (r : ListingRow) : List ListingRow → List ListingRow
  | [] => [r]
  | x :: xs =>
    if x.scraped_at ≤ r.scraped_at then r :: x :: xs
    else x :: insertByScrapedDesc r xs

/-- Sort by `scraped_at` descending. -/
def sortByScrapedDesc (l : List ListingRow) : List ListingRow :=
  l.foldr insertByScrapedDesc []

/-- The WHERE clause of `get_listings_without_details` (storage.py lines
263-270): `l.vin IS NOT NULL AND d.vin IS NULL` after the LEFT JOIN on
`l.vin = d.vin`. -/
def wantsDetail (details : List DetailRow) (l : ListingRow) : Bool :=
  l.vin.isSome && !(details.any (fun d => some d.vin == l.vin))

/-- Embeds `Storage.get_listings_without_details` (storage.py lines 260-271). -/
def getListingsWithoutDetails (limit : Nat) (st : StorageState) : List ListingRow :=
  (sortByScrapedDesc (st.listings.filter (wantsDetail st.details))).take limit

/-- "Most recently scraped first": the second row was scraped no later than
the first. -/
def scrapedGe (a b : ListingRow) : Prop :=
  b.scraped_at ≤ a.scraped_at

/-! ### Dynamic attribute model for `upsert_listing` applied to a `CarListing`

`extract_listings` (extractor.py line 138) constructs plain `CarListing`
pydantic objects; `upsert_listing` evaluates `listing.vin` (storage.py
line 141) before executing its statement.  Pydantic raises `AttributeError`
for an attribute that no field of the model declares, so the write is
modelled dynamically: an attribute set plus the set of attribute reads. -/

/-- The fields declared by `CarListing` (schemas.py lines 31-49). -/
def carListingFields : List String :=
  ["id", "source_site", "url", "year", "make", "model", "trim", "miles",
   "current_bid", "buy_now_price", "condition", "damage_type",
   "secondary_damage", "location", "sale_date", "thumbnail_url", "scraped_at"]

/-- The extra fields `CarDetail` adds (schemas.py lines 59-73). -/
def carDetailFields : List String :=
  carListingFields ++
  ["vin", "engine", "transmission", "drive_type", "fuel_type", "color",
   "interior_color", "keys", "airbags", "seller", "title_type", "images",
   "description"]

/-- The attributes `upsert_listing` reads from its argument while building
the statement parameters (storage.py lines 139-155). -/
def upsertListingReads : List String :=
  ["id", "source_site", "vin", "url", "year", "make", "model", "trim",
   "miles", "current_bid", "buy_now_price", "condition", "damage_type",
   "secondary_damage", "location", "sale_date", "thumbnail_url"]

inductive PyError where
  | attributeError
deriving DecidableEq

/-- Runs `upsert_listing` with the declared attribute set of the argument made
explicit: the parameter tuple is evaluated first, so a missing attribute
raises before anything is written. -/
def upsertListingDyn (declared : List String) (now : Nat) (r : ListingInput)
    (db : List ListingRow) : Except PyError (List ListingRow) :=
  if upsertListingReads.all (fun a => declared.contains a) then
    .ok (upsertListing now r db)
  else
    .error .attributeError

/-! ### src/scraper/extractor.py -/

/-- The backtick character (code point 96). -/
def btChar : Char := Char.ofNat 96

/-- The markdown fence marker, three backticks. -/
def fenceMarker : List Char := [btChar, btChar, btChar]

/-- The content markers of `_truncate_html` (extractor.py lines 29-31),
in the order the loop tries them. -/
def contentMarkers : List (List Char) :=
  ["<table".data, "<tbody".data, "results".data, "listings".data,
   "lot-".data, "vehicle".data]

/-- The marker loop of `_truncate_html` (extractor.py lines 33-38): take the
first marker in list order whose first occurrence `idx` in the lowercased
document satisfies `idx > 0 and idx < len(html) // 2`, and start
`max(0, idx - 1000)` before it (`Nat` subtraction is the `max` with `0`);
with no such marker the start is `0`. -/
def pickStart (lower : List Char) (halfLen : Nat) : List (List Char) → Nat
  | [] => 0
  | m :: ms =>
    match findSub m lower with
    | some idx => if 0 < idx ∧ idx < halfLen then idx - 1000 else pickStart lower halfLen ms
    | none => pickStart lower halfLen ms

/-- The sentinel `_truncate_html` appends (extractor.py line 47). -/
def truncationComment : List Char := "\n<!-- content truncated -->".data

/-- The window `html[best_start : best_start + max_chars]` of
`_truncate_html` (extractor.py lines 33-40). -/
def windowSlice (html : List Char) (maxChars : Nat) : List Char :=
  let lower := pyLower html
  let bestStart := pickStart lower (html.length / 2) contentMarkers
  (html.drop bestStart).take maxChars

/-- The closing-tag trim of `_truncate_html` (extractor.py lines 42-45):
`last_close` is an `Int` because the Python `rfind` returns `-1` on failure
and the comparison `last_close > max_chars - 2000` is over ints;
`truncated[:last_close + 1]` only runs when the comparison holds. -/
def trimToClose (maxChars : Nat) (truncated : List Char) : List Char :=
  let lastClose : Int :=
    match lastIdxOf '>' truncated with
    | some i => (i : Int)
    | none => -1
  if lastClose > (maxChars : Int) - 2000 then truncated.take (lastClose + 1).toNat
  else truncated

/-- Embeds `ListingExtractor._truncate_html` (extractor.py lines 20-47). -/
def truncateHtml (html : List Char) (maxChars : Nat) : List Char :=
  if html.length ≤ maxChars then html
  else trimToClose maxChars (windowSlice html maxChars) ++ truncationComment

/-- The fence-line test `l.strip().startswith` of
`_clean_json_response` (extractor.py line 57). -/
def isFenceLine (l : List Char) : Bool :=
  fenceMarker.isPrefixOf (pyStrip l)

/-- Embeds `ListingExtractor._clean_json_response` (extractor.py lines 49-60). -/
def cleanJsonResponse (s : List Char) : List Char :=
  let text := pyStrip s
  if fenceMarker.isPrefixOf text then
    pyStrip (joinNl ((splitNl text).filter (fun l => !(isFenceLine l))))
  else text

/-- Wrapping a response in a markdown code fence, the transformation the
scenario of the specification describes. -/
def fenceWrap (s : List Char) : List Char :=
  (fenceMarker ++ "json".data) ++ '\n' :: (s ++ '\n' :: fenceMarker)

/-! ### src/main.py, the `_search` coroutine of the `search` command

The coroutine is modelled as a pure function of a scenario that fixes the
outcome of every awaited step.  Each await either returns a value, raises
`KeyboardInterrupt`, or raises a generic `Exception` (only where the source
can actually propagate one; e.g. `has_next_page` has a bare `except:` so it
never raises, while `extract_listings` swallows `Exception` internally but
lets `KeyboardInterrupt` through).  Python local variables that the
exception handlers may read before their assignment (`total_listings`,
`errors`; main.py lines 155-156 vs 221 and 224) are modelled as `Option`
values, `none` meaning unbound, so that the `NameError` of the handler is
representable. -/

inductive StepRes (α : Type) where
  | ok (a : α)
  | intr
  | exc
deriving DecidableEq

/-- Outcome of `extract_listings`: it catches `Exception` internally and
returns a (possibly empty) list, but a `KeyboardInterrupt` propagates. -/
inductive ExtractRes where
  | listings (n : Nat)
  | intr
deriving DecidableEq

/-- Outcome of the `upsert_listings` call inside the inner `try` of the page
loop (main.py lines 179-185): success, a caught database `Exception`
(`errors += 1`), or a propagating `KeyboardInterrupt`. -/
inductive UpsertRes where
  | ok
  | dbError
  | intr
deriving DecidableEq

/-- Outcome of `go_next_page`: it returns a bool and catches `Exception`,
but `KeyboardInterrupt` can propagate from its inner awaits. -/
inductive GoRes where
  | val (b : Bool)
  | intr
deriving DecidableEq

/-- Scripted outcomes for one iteration of the page loop. -/
structure PageEv where
  getHtml : StepRes Unit
  extract : ExtractRes
  upsert : UpsertRes
  hasNext : Bool
  goNext : GoRes

/-- Scripted outcomes for one invocation of `_search`. -/
structure Scenario where
  connect : StepRes Unit
  startRun : StepRes Nat
  browserStart : StepRes Unit
  login : StepRes Bool
  saveCookies : StepRes Unit
  search : StepRes Bool
  maxPages : Nat
  pages : Nat → PageEv

/-- The local variables of `_search` that the exception handlers read;
`none` models a not-yet-assigned Python local. -/
structure SearchLocals where
  runId : Option Nat
  totalListings : Option Nat
  errors : Option Nat
deriving DecidableEq

/-- One `complete_run` write (storage.py lines 283-301). -/
structure RunWrite where
  runId : Nat
  listingsFound : Nat
  detailsFetched : Nat
  errCount : Nat
  status : String
deriving DecidableEq

/-- How the `try` block of `_search` ended. -/
inductive Ctrl where
  | normal
  | earlyReturn
  | intr
  | exc
deriving DecidableEq

/-- The `while page <= max_pages` loop of `_search` (main.py lines 159-199),
returning the final `total_listings`, `errors` and how control left the
loop. -/
def pageLoop (pages : Nat → PageEv) (maxPages : Nat) (page tl er : Nat) :
    Nat × Nat × Ctrl :=
  if _h : maxPages < page then (tl, er, .normal)
  else
    let ev := pages page
    match ev.getHtml with
    | .intr => (tl, er, .intr)
    | .exc => (tl, er, .exc)
    | .ok _ =>
      match ev.extract with
      | .intr => (tl, er, .intr)
      | .listings n =>
        if n = 0 then (tl, er, .normal)
        else
          let step : Nat × Nat × Option Ctrl :=
            match ev.upsert with
            | .ok => (tl + n, er, none)
            | .dbError => (tl, er + 1, none)
            | .intr => (tl, er, some .intr)
          match step with
          | (_, _, some c) => (tl, er, c)
          | (tl2, er2, none) =>
            if page < maxPages then
              if ev.hasNext then
                match ev.goNext with
                | .intr => (tl2, er2, .intr)
                | .val false => (tl2, er2, .normal)
                | .val true => pageLoop pages maxPages (page + 1) tl2 er2
              else (tl2, er2, .normal)
            else pageLoop pages maxPages (page + 1) tl2 er2
termination_by maxPages + 1 - page

/-- The `try` block of `_search` (main.py lines 115-217): the writes already
performed, the locals as bound so far, and how control left the block. -/
def searchTryBody (sc : Scenario) : List RunWrite × SearchLocals × Ctrl :=
  let l0 : SearchLocals := ⟨none, none, none⟩
  match sc.connect with
  | .intr => ([], l0, .intr)
  | .exc => ([], l0, .exc)
  | .ok _ =>
    match sc.startRun with
    | .intr => ([], l0, .intr)
    | .exc => ([], l0, .exc)
    | .ok rid =>
      let l1 : SearchLocals := { l0 with runId := some rid }
      match sc.browserStart with
      | .intr => ([], l1, .intr)
      | .exc => ([], l1, .exc)
      | .ok _ =>
        match sc.login with
        | .intr => ([], l1, .intr)
        | .exc => ([], l1, .exc)
        | .ok false => ([⟨rid, 0, 0, 1, "failed"⟩], l1, .earlyReturn)
        | .ok true =>
          match sc.saveCookies with
          | .intr => ([], l1, .intr)
          | .exc => ([], l1, .exc)
          | .ok _ =>
            match sc.search with
            | .intr => ([], l1, .intr)
            | .exc => ([], l1, .exc)
            | .ok false => ([⟨rid, 0, 0, 1, "failed"⟩], l1, .earlyReturn)
            | .ok true =>
              match pageLoop sc.pages sc.maxPages 1 0 0 with
              | (tl, er, ctrl) =>
                let l2 : SearchLocals :=
                  { l1 with totalListings := some tl, errors := some er }
                match ctrl with
                | .normal => ([⟨rid, tl, 0, er, "completed"⟩], l2, .normal)
                | c => ([], l2, c)

/-- Result of one `_search` invocation: the `complete_run` writes performed
(in order, all before the `finally` block releases the resources), whether
the browser and storage were released, and the exception escaping the
coroutine, if any. -/
structure SearchOutcome where
  completions : List RunWrite
  browserClosed : Bool
  storageClosed : Bool
  raised : Option String
deriving DecidableEq

/-- Embeds `_search` (main.py lines 115-228): the `try` body, then the
`except KeyboardInterrupt` / `except Exception` handlers (which evaluate
`run_id`, `total_listings`, `errors` in that order and raise `NameError`
on the first unbound one), then the `finally` block. -/
def searchRun (sc : Scenario) : SearchOutcome :=
  match searchTryBody sc with
  | (ws, loc, ctrl) =>
    let handled : List RunWrite × Option String :=
      match ctrl with
      | .normal => (ws, none)
      | .earlyReturn => (ws, none)
      | .intr =>
        match loc.runId, loc.totalListings, loc.errors with
        | some r, some t, some e => (ws ++ [⟨r, t, 0, e, "interrupted"⟩], none)
        | _, _, _ => (ws, some "NameError")
      | .exc =>
        match loc.runId, loc.totalListings, loc.errors with
        | some r, some t, some e => (ws ++ [⟨r, t, 0, e + 1, "failed"⟩], some "Exception")
        | _, _, _ => (ws, some "NameError")
    { completions := handled.1, browserClosed := true, storageClosed := true,
      raised := handled.2 }

/-! ### Concrete inputs used by counterexamples and witnesses -/

/-- A listing input with every nullable field absent. -/
def inputBase : ListingInput :=
  { id := "", source_site := "copart", vin := none, url := none, year := none,
    make := none, model := none, trim := none, miles := none,
    current_bid := none, buy_now_price := none, condition := none,
    damage_type := none, secondary_damage := none, location := none,
    sale_date := none, thumbnail_url := none }

/-- An existing stored row for lot 12345 whose make is already `Honda`. -/
def rowA : ListingRow :=
  newListingRow 0 { inputBase with id := "12345", make := some "Honda" }

/-- An incoming update for the same key carrying a non-null make `Toyota`. -/
def recA : ListingInput :=
  { inputBase with id := "12345", make := some "Toyota" }

/-- A detail record without a VIN. -/
def detailNoVin : DetailInput :=
  { toListingInput := { inputBase with id := "777" }, engine := none,
    transmission := none, drive_type := none, fuel_type := none,
    color := none, interior_color := none, keys := none, airbags := none,
    seller := none, title_type := none, images := [], description := none }

/-- An empty storage state. -/
def emptyStorage : StorageState := { listings := [], details := [], skipMsgs := 0 }

/-- A stored listing row that has a VIN and no matching detail row. -/
def rowW : ListingRow :=
  newListingRow 3 { inputBase with id := "1", vin := some "1HGCV1F34LA000000" }

/-- A storage state holding just `rowW`. -/
def storageW : StorageState := { listings := [rowW], details := [], skipMsgs := 0 }

/-- A baseline listing record for the year-validator witness. -/
def carListingBase : CarListing :=
  { id := "12345", source_site := "copart", url := none, year := none,
    make := some "Honda", model := some "Accord", trim := none, miles := none,
    current_bid := none, buy_now_price := none, condition := none,
    damage_type := none, secondary_damage := none, location := none,
    sale_date := none, thumbnail_url := none, scraped_at := 0 }

/-- A 100-character page: 59 filler characters, one closing angle bracket,
40 more filler characters.  Longer than a 60-character budget. -/
def htmlCex : List Char :=
  List.replicate 59 'a' ++ '>' :: List.replicate 40 'a'

/-- Pages that behave benignly (used where the scenario never reaches them). -/
def pageEvBenign : PageEv :=
  { getHtml := .ok (), extract := .listings 0, upsert := .ok,
    hasNext := false, goNext := .val false }

/-- A run in which the database connects, `start_run` returns id 7, the
browser starts, and then a `KeyboardInterrupt` arrives during the awaited
`browser.login` call — before main.py line 155 binds `total_listings`. -/
def scenarioInterruptAtLogin : Scenario :=
  { connect := .ok (), startRun := .ok 7, browserStart := .ok (),
    login := .intr, saveCookies := .ok (), search := .ok true,
    maxPages := 5, pages := fun _ => pageEvBenign }

/-! ## Theorems -/

/-! ### Helper lemmas -/

theorem vinChar_eq (c : Char) : isVinChar c = specVinChar c := by
  have hA : 'A'.toNat = 65 := rfl
  have hZ : 'Z'.toNat = 90 := rfl
  have hI : 'I'.toNat = 73 := rfl
  have hO : 'O'.toNat = 79 := rfl
  have hQ : 'Q'.toNat = 81 := rfl
  have h0 : '0'.toNat = 48 := rfl
  have h9 : '9'.toNat = 57 := rfl
  simp only [isVinChar, specVinChar, hA, hZ, hI, hO, hQ, h0, h9]
  rw [Bool.eq_iff_iff]
  simp only [Bool.or_eq_true, Bool.and_eq_true, Bool.not_eq_true',
    Bool.or_eq_false_iff, decide_eq_true_eq, decide_eq_false_iff_not]
  omega

/-! ### C5: the VIN validator -/

/-- C5. `CarDetail.validate_vin` accepts a string exactly when its trimmed,
upper-cased form is 17 characters drawn from the letters A-Z without I, O, Q
plus the digits 0-9, and then stores that upper-cased form; any other string
(wrong length or forbidden character) is mapped to `none` rather than
rejecting the record, and an absent VIN stays absent. -/
theorem validate_vin_spec (s : List Char) :
    validate_vin (some s) =
      (if (pyUpper (pyStrip s)).length = 17 &&
          (pyUpper (pyStrip s)).all specVinChar
       then some (pyUpper (pyStrip s)) else none) ∧
    validate_vin none = none := by
  constructor
  · simp only [validate_vin]
    rw [show isVinChar = specVinChar from funext vinChar_eq]
  · rfl

/-! ### C6: the year validators -/

/-- C6. The year validators accept exactly the range `[1900, cy + 1]` where
`cy` is the current year as read at validation time.  On a listing record an
out-of-range year is nulled while the rest of the record is kept as given;
on search-criteria construction an out-of-range bound is a validation
failure. -/
theorem year_validators_spec (cy y : Int) :
    (CarListing.validate_year cy (some y) =
      if 1900 ≤ y ∧ y ≤ cy + 1 then some y else none) ∧
    (SearchCriteria.validate_year cy (some y) =
      if 1900 ≤ y ∧ y ≤ cy + 1 then .ok (some y)
      else .error ("Year must be between 1900 and " ++ toString (cy + 1))) ∧
    (∀ r : CarListing,
      mkCarListing cy r = { r with year := CarListing.validate_year cy r.year }) ∧
    (∀ make model ymax mm mp, (y < 1900 ∨ y > cy + 1) →
      mkSearchCriteria cy make model (some y) ymax mm mp =
        .error ("Year must be between 1900 and " ++ toString (cy + 1))) := by
  refine ⟨?_, ?_, fun r => rfl, ?_⟩
  · simp only [CarListing.validate_year]
    by_cases h : 1900 ≤ y ∧ y ≤ cy + 1
    · rw [if_pos h, if_neg (by omega)]
    · rw [if_neg h, if_pos (by omega)]
  · simp only [SearchCriteria.validate_year]
    by_cases h : 1900 ≤ y ∧ y ≤ cy + 1
    · rw [if_pos h, if_neg (by omega)]
    · rw [if_neg h, if_pos (by omega)]
  · intro make model ymax mm mp h
    simp only [mkSearchCriteria, SearchCriteria.validate_year, if_pos h]
    rfl

/-- Witness for C6 at the current year 2025 and the out-of-range year 9999:
the listing keeps every field except the nulled year, and criteria
construction fails. -/
theorem year_validators_spec_witness :
    mkCarListing 2025 { carListingBase with year := some 9999 } =
      { carListingBase with year := none } ∧
    mkSearchCriteria 2025 "Honda" none (some 9999) none none none =
      .error ("Year must be between 1900 and " ++ toString (2025 + 1 : Int)) := by
  constructor
  · have h := (year_validators_spec 2025 9999).2.2.1
      { carListingBase with year := some 9999 }
    rw [h]
    decide
  · exact (year_validators_spec 2025 9999).2.2.2 "Honda" none none none none
      (by omega)

/-! ### C4: `upsert_listing` applied to a plain `CarListing` -/

/-- C4. `upsert_listing` reads the attribute `vin` from its argument, which
`CarListing` (the type `extract_listings` constructs) does not declare —
only `CarDetail` adds it.  So for every storage state and record contents,
the dynamic write on a `CarListing` raises `AttributeError` instead of
storing anything, while on a `CarDetail` it performs the upsert. -/
theorem upsertListing_carListing_attrError :
    upsertListingReads.contains "vin" = true ∧
    carListingFields.contains "vin" = false ∧
    carDetailFields.contains "vin" = true ∧
    (∀ (now : Nat) (r : ListingInput) (db : List ListingRow),
      upsertListingDyn carListingFields now r db = .error .attributeError) ∧
    (∀ (now : Nat) (r : ListingInput) (db : List ListingRow),
      upsertListingDyn carDetailFields now r db = .ok (upsertListing now r db)) := by
  refine ⟨by decide, by decide, by decide, ?_, ?_⟩
  · intro now r db
    have hc : upsertListingReads.all (fun a => carListingFields.contains a) = false := by
      decide
    unfold upsertListingDyn
    rw [hc]
    simp
  · intro now r db
    have hc : upsertListingReads.all (fun a => carDetailFields.contains a) = true := by
      decide
    unfold upsertListingDyn
    rw [hc]
    simp

/-! ### Coalesce-merge helper lemmas -/

theorem option_or_self {α : Type} (a : Option α) : a.or a = a := by
  cases a <;> rfl

theorem option_or_absorb {α : Type} (a b : Option α) : a.or (a.or b) = a.or b := by
  cases a <;> rfl

theorem keyMatch_merge (now : Nat) (r : ListingInput) (row : ListingRow) :
    keyMatch r (mergeListingRow now r row) = keyMatch r row := rfl

theorem keyMatch_new (now : Nat) (r : ListingInput) :
    keyMatch r (newListingRow now r) = true := by
  simp [keyMatch, newListingRow]

theorem mergeListingRow_idem (now : Nat) (r : ListingInput) (old : ListingRow) :
    mergeListingRow now r (mergeListingRow now r old) = mergeListingRow now r old := by
  simp [mergeListingRow, option_or_absorb]

theorem mergeListingRow_new (now : Nat) (r : ListingInput) :
    mergeListingRow now r (newListingRow now r) = newListingRow now r := by
  simp [mergeListingRow, newListingRow, option_or_self]

/-! ### C2: idempotence of `upsert_listing` -/

/-- C2. With the wall-clock instant made an explicit parameter, applying
`upsert_listing` twice with the same record leaves stored state identical to
applying it once, on every starting state. -/
theorem upsertListing_idempotent (now : Nat) (r : ListingInput)
    (db : List ListingRow) :
    upsertListing now r (upsertListing now r db) = upsertListing now r db := by
  by_cases h : db.any (keyMatch r) = true
  · simp only [upsertListing, h, if_true]
    have hany : (db.map (fun row =>
        if keyMatch r row then mergeListingRow now r row else row)).any (keyMatch r)
        = true := by
      rw [List.any_map]
      rw [show ((keyMatch r) ∘ fun row =>
          if keyMatch r row then mergeListingRow now r row else row) = keyMatch r by
        funext row
        by_cases hr : keyMatch r row = true <;>
          simp [Function.comp, hr, keyMatch_merge]]
      exact h
    simp only [upsertListing, hany, if_true, List.map_map]
    apply List.map_congr_left
    intro row _
    by_cases hr : keyMatch r row = true
    · simp [Function.comp, hr, keyMatch_merge, mergeListingRow_idem]
    · simp [Function.comp, hr]
  · have hfalse : db.any (keyMatch r) = false := by
      simpa using h
    simp only [upsertListing, hfalse, Bool.false_eq_true, if_false]
    have hany : (db ++ [newListingRow now r]).any (keyMatch r) = true := by
      simp [List.any_append, keyMatch_new]
    simp only [upsertListing, hany, if_true, List.map_append]
    have hall : ∀ row ∈ db, keyMatch r row = false := fun row hrow =>
      Bool.not_eq_true _ ▸ (List.any_eq_false.mp hfalse row hrow)
    have h1 : db.map (fun row =>
        if keyMatch r row then mergeListingRow now r row else row) = db := by
      rw [show db.map (fun row =>
          if keyMatch r row then mergeListingRow now r row else row) = db.map id from
        List.map_congr_left (fun row hrow => by simp [hall row hrow])]
      exact List.map_id db
    have h2 : (if keyMatch r (newListingRow now r) then
        mergeListingRow now r (newListingRow now r) else newListingRow now r) =
        newListingRow now r := by
      simp [keyMatch_new, mergeListingRow_new]
    simp only [List.map_cons, List.map_nil, h1, h2]

/-! ### C1: the merge rule of `upsert_listing` -/

/-- Counterexample to C1 as stated: the incoming record carries the non-null
make `Toyota` for an existing row of the same `(source_site, id)` key, yet
the stored make stays `Honda` — `upsert_listing` does not overwrite every
field whose incoming value is non-null. -/
theorem upsertListing_full_coalesce_cex :
    recA.make = some "Toyota" ∧ keyMatch recA rowA = true ∧
    (upsertListing 1 recA [rowA]).map ListingRow.make = [some "Honda"] := by
  decide

/-- C1 amended. On a key conflict `upsert_listing` coalesce-merges exactly
the five columns `vin`, `url`, `current_bid`, `buy_now_price`, `sale_date`
(a non-null incoming value overwrites, a null one never erases the stored
value), refreshes `updated_at`, and leaves every other column of the
existing row unchanged regardless of the incoming value. -/
theorem upsertListing_partial_coalesce (now : Nat) (r : ListingInput)
    (old : ListingRow) (h : keyMatch r old = true) :
    upsertListing now r [old] =
      [{ old with
          vin := r.vin.or old.vin,
          url := r.url.or old.url,
          current_bid := r.current_bid.or old.current_bid,
          buy_now_price := r.buy_now_price.or old.buy_now_price,
          sale_date := r.sale_date.or old.sale_date,
          updated_at := now }] := by
  simp [upsertListing, List.any_cons, h, mergeListingRow]

/-- Witness for the amended C1 at a concrete conflicting pair. -/
theorem upsertListing_partial_coalesce_witness :
    keyMatch recA rowA = true ∧
    upsertListing 2 recA [rowA] =
      [{ rowA with
          vin := recA.vin.or rowA.vin,
          url := recA.url.or rowA.url,
          current_bid := recA.current_bid.or rowA.current_bid,
          buy_now_price := recA.buy_now_price.or rowA.buy_now_price,
          sale_date := recA.sale_date.or rowA.sale_date,
          updated_at := 2 }] :=
  ⟨by decide, upsertListing_partial_coalesce 2 recA rowA (by decide)⟩

/-! ### C3: `upsert_detail` with a null VIN -/

/-- Counterexample to C3 as stated: with no VIN the operation is not a no-op
on stored state — it still upserts the listing row first, so the listings
relation of the empty state gains a row. -/
theorem upsertDetail_nullVin_noop_cex :
    detailNoVin.vin = none ∧
    emptyStorage.listings.length = 0 ∧
    (upsertDetail 1 detailNoVin emptyStorage).listings.length = 1 := by
  decide

/-- C3 amended. When the VIN is falsy (`None` or the empty string),
`upsert_detail` leaves the details relation unchanged and emits exactly one
skip message, but it is not a no-op: the listing row has already been
upserted before the VIN check. -/
theorem upsertDetail_nullVin (now : Nat) (d : DetailInput) (st : StorageState)
    (h : d.vin = none ∨ d.vin = some "") :
    (upsertDetail now d st).details = st.details ∧
    (upsertDetail now d st).skipMsgs = st.skipMsgs + 1 ∧
    (upsertDetail now d st).listings =
      upsertListing now d.toListingInput st.listings := by
  rcases h with h | h <;> simp [upsertDetail, h, String.isEmpty]

/-- Witness for the amended C3 on the empty state. -/
theorem upsertDetail_nullVin_witness :
    (upsertDetail 1 detailNoVin emptyStorage).details = emptyStorage.details ∧
    (upsertDetail 1 detailNoVin emptyStorage).skipMsgs =
      emptyStorage.skipMsgs + 1 ∧
    (upsertDetail 1 detailNoVin emptyStorage).listings =
      upsertListing 1 detailNoVin.toListingInput emptyStorage.listings :=
  upsertDetail_nullVin 1 detailNoVin emptyStorage (Or.inl (by decide))

/-! ### Sorting lemmas for the detail-pass query -/

theorem mem_insertByScrapedDesc {x r : ListingRow} {l : List ListingRow} :
    x ∈ insertByScrapedDesc r l ↔ x = r ∨ x ∈ l := by
  induction l with
  | nil => simp [insertByScrapedDesc]
  | cons y ys ih =>
    simp only [insertByScrapedDesc]
    split
    · simp
    · simp only [List.mem_cons, ih]
      tauto

theorem mem_sortByScrapedDesc {x : ListingRow} {l : List ListingRow} :
    x ∈ sortByScrapedDesc l ↔ x ∈ l := by
  induction l with
  | nil => simp [sortByScrapedDesc]
  | cons y ys ih =>
    simp only [sortByScrapedDesc, List.foldr_cons] at *
    rw [mem_insertByScrapedDesc, ih]
    simp

theorem pairwise_insertByScrapedDesc (r : ListingRow) (l : List ListingRow)
    (h : List.Pairwise scrapedGe l) :
    List.Pairwise scrapedGe (insertByScrapedDesc r l) := by
  induction l with
  | nil => simp [insertByScrapedDesc, List.pairwise_singleton]
  | cons y ys ih =>
    simp only [insertByScrapedDesc]
    rcases List.pairwise_cons.mp h with ⟨hy, hys⟩
    split
    · rename_i hle
      refine List.pairwise_cons.mpr ⟨?_, h⟩
      intro z hz
      rcases List.mem_cons.mp hz with rfl | hz
      · exact hle
      · exact le_trans (hy z hz) hle
    · rename_i hgt
      refine List.pairwise_cons.mpr ⟨?_, ih hys⟩
      intro z hz
      rcases mem_insertByScrapedDesc.mp hz with rfl | hz
      · exact le_of_not_le hgt
      · exact hy z hz

theorem pairwise_sortByScrapedDesc (l : List ListingRow) :
    List.Pairwise scrapedGe (sortByScrapedDesc l) := by
  induction l with
  | nil => simp [sortByScrapedDesc]
  | cons y ys ih =>
    simpa [sortByScrapedDesc] using
      pairwise_insertByScrapedDesc y (sortByScrapedDesc ys) ih

/-! ### C7: `get_listings_without_details` -/

/-- C7. For every stored state and limit, the query returns at most `limit`
rows; every returned row has a non-null VIN and no detail row with a
matching VIN (in particular it never returns a record whose VIN has a
matching detail row); and the result is ordered most-recently-scraped
first. -/
theorem getListingsWithoutDetails_spec (limit : Nat) (st : StorageState) :
    (getListingsWithoutDetails limit st).length ≤ limit ∧
    (∀ l ∈ getListingsWithoutDetails limit st,
      l.vin.isSome = true ∧ ∀ d ∈ st.details, (some d.vin == l.vin) = false) ∧
    List.Pairwise scrapedGe (getListingsWithoutDetails limit st) := by
  refine ⟨List.length_take_le _ _, ?_, ?_⟩
  · intro l hl
    have hmem : l ∈ sortByScrapedDesc (st.listings.filter (wantsDetail st.details)) :=
      List.mem_of_mem_take hl
    have hfil : l ∈ st.listings.filter (wantsDetail st.details) :=
      mem_sortByScrapedDesc.mp hmem
    have hw : wantsDetail st.details l = true := (List.mem_filter.mp hfil).2
    rw [wantsDetail] at hw
    rcases Bool.and_eq_true_iff.mp hw with ⟨hsome, hnone⟩
    refine ⟨hsome, fun d hd => ?_⟩
    have := List.any_eq_false.mp (Bool.not_eq_true' (st.details.any
      (fun d => some d.vin == l.vin)) ▸ hnone) d hd
    simpa using this
  · exact (pairwise_sortByScrapedDesc _).sublist (List.take_sublist _ _)

/-- Witness for C7 at a concrete one-row state and limit 1. -/
theorem getListingsWithoutDetails_spec_witness :
    (getListingsWithoutDetails 1 storageW).length ≤ 1 ∧
    rowW.vin.isSome = true :=
  ⟨(getListingsWithoutDetails_spec 1 storageW).1,
   ((getListingsWithoutDetails_spec 1 storageW).2.1 rowW (by decide)).1⟩

/-! ### C8: the HTML windowing function -/

theorem trimToClose_length_le (maxChars : Nat) (t : List Char) :
    (trimToClose maxChars t).length ≤ t.length := by
  unfold trimToClose
  split <;> dsimp only <;> split <;> simp [List.length_take]

/-- Counterexample to C8 as stated: a 100-character page with a 60-character
budget yields an 87-character result — the windowing function appends a
27-character truncation comment after slicing, so its output is not a slice
of at most the budget in characters. -/
theorem truncateHtml_budget_cex :
    htmlCex.length = 100 ∧ 60 < htmlCex.length ∧
    (truncateHtml htmlCex 60).length = 87 ∧
    60 < (truncateHtml htmlCex 60).length := by
  decide

/-- C8 amended. For markup longer than the budget, the result is the
windowed slice (at most the budget in characters, trimmed back to
the last closing angle bracket only when one falls within the final 2000
characters of the window) with the fixed 27-character truncation comment
appended: its total length is at most the budget plus the comment
length, and it always ends with the comment (hence at a closing tag
boundary only because the comment itself ends in one). -/
theorem truncateHtml_budget (html : List Char) (maxChars : Nat)
    (h : maxChars < html.length) :
    (truncateHtml html maxChars).length ≤ maxChars + truncationComment.length ∧
    truncateHtml html maxChars =
      trimToClose maxChars (windowSlice html maxChars) ++ truncationComment ∧
    (trimToClose maxChars (windowSlice html maxChars)).length ≤ maxChars := by
  have hwin : (windowSlice html maxChars).length ≤ maxChars := by
    unfold windowSlice
    rw [List.length_take]
    exact min_le_left _ _
  have htrim : (trimToClose maxChars (windowSlice html maxChars)).length ≤ maxChars :=
    le_trans (trimToClose_length_le _ _) hwin
  have heq : truncateHtml html maxChars =
      trimToClose maxChars (windowSlice html maxChars) ++ truncationComment := by
    unfold truncateHtml
    rw [if_neg (by omega)]
  refine ⟨?_, heq, htrim⟩
  rw [heq, List.length_append]
  omega

/-- Witness for the amended C8 at the concrete 100-character page and
60-character budget. -/
theorem truncateHtml_budget_witness :
    (truncateHtml htmlCex 60).length ≤ 60 + truncationComment.length ∧
    truncateHtml htmlCex 60 =
      trimToClose 60 (windowSlice htmlCex 60) ++ truncationComment ∧
    (trimToClose 60 (windowSlice htmlCex 60)).length ≤ 60 :=
  truncateHtml_budget htmlCex 60 (by decide)

/-! ### C10: run finalization on every exit path -/

/-- C10. Evaluation of `_search` at a failing input: the run is started
(`start_run` returns id 7) and a `KeyboardInterrupt` arrives during the
awaited `browser.login`.  The `except KeyboardInterrupt` handler then
evaluates `total_listings` (main.py line 221), a local that is only bound
at line 155 after a successful search — so the handler raises `NameError`,
no `complete_run` write happens at all, and the run row is left in status
`running` while the `finally` block still releases browser and storage.
This contradicts the claim that every exit path performs exactly one
terminal `complete_run` write. -/
theorem searchRun_interrupted_run_never_finalized :
    scenarioInterruptAtLogin.startRun = StepRes.ok 7 ∧
    searchRun scenarioInterruptAtLogin =
      { completions := [], browserClosed := true, storageClosed := true,
        raised := some "NameError" } :=
  ⟨rfl, rfl⟩

/-! ### Line-splitting and stripping lemmas for the response cleaner -/

theorem splitNl_ne_nil (s : List Char) : splitNl s ≠ [] := by
  cases s with
  | nil => simp [splitNl]
  | cons c cs =>
    by_cases hn : c = '\n'
    · simp [splitNl, hn]
    · cases hb : splitNl cs <;> simp [splitNl, hn, hb]

theorem splitNl_append_newline (a b : List Char) :
    splitNl (a ++ '\n' :: b) = splitNl a ++ splitNl b := by
  induction a with
  | nil => simp [splitNl]
  | cons c a ih =>
    by_cases hn : c = '\n'
    · subst hn
      simp [splitNl, ih]
    · obtain ⟨l0, ls, hsp⟩ := List.exists_cons_of_ne_nil (splitNl_ne_nil a)
      simp [splitNl, hn, ih, hsp]

theorem joinNl_splitNl (s : List Char) : joinNl (splitNl s) = s := by
  induction s with
  | nil => rfl
  | cons c cs ih =>
    obtain ⟨l0, ls, hsp⟩ := List.exists_cons_of_ne_nil (splitNl_ne_nil cs)
    rw [hsp] at ih
    by_cases hn : c = '\n'
    · subst hn
      rw [show splitNl ('\n' :: cs) = [] :: splitNl cs from by simp [splitNl], hsp]
      cases ls with
      | nil => simpa [joinNl] using ih
      | cons l1 ls1 => simpa [joinNl] using ih
    · rw [show splitNl (c :: cs) = (c :: l0) :: ls from by simp [splitNl, hn, hsp]]
      cases ls with
      | nil =>
        simp only [joinNl] at ih ⊢
        rw [ih]
      | cons l1 ls1 =>
        simp only [joinNl, List.cons_append] at ih ⊢
        rw [ih]

theorem pyStripRight_prefix_self (l : List Char) : pyStripRight l <+: l := by
  induction l with
  | nil => simp [pyStripRight]
  | cons c cs ih =>
    cases hr : pyStripRight cs with
    | nil =>
      by_cases hw : pyWsChar c = true <;>
        simp [pyStripRight, hr, hw, List.cons_prefix_cons]
    | cons d l2 =>
      rw [hr] at ih
      rw [show pyStripRight (c :: cs) = c :: d :: l2 from by simp [pyStripRight, hr]]
      simpa [List.cons_prefix_cons] using ih

theorem pyStripRight_append_nonws (l : List Char) (c : Char)
    (hc : pyWsChar c = false) : pyStripRight (l ++ [c]) = l ++ [c] := by
  induction l with
  | nil => simp [pyStripRight, hc]
  | cons x xs ih =>
    have hne : pyStripRight (xs ++ [c]) ≠ [] := by
      rw [ih]; simp
    cases hr : pyStripRight (xs ++ [c]) with
    | nil => exact absurd hr hne
    | cons d l2 =>
      rw [List.cons_append,
        show pyStripRight (x :: (xs ++ [c])) = x :: d :: l2 from by
          simp [pyStripRight, hr]]
      rw [ih] at hr
      rw [hr]

theorem pyStripRight_cons_of_nonws (c : Char) (cs : List Char)
    (hc : pyWsChar c = false) : ∃ l, pyStripRight (c :: cs) = c :: l := by
  cases hr : pyStripRight cs with
  | nil => exact ⟨[], by simp [pyStripRight, hr, hc]⟩
  | cons d l2 => exact ⟨d :: l2, by simp [pyStripRight, hr]⟩

theorem pyStripRight_cons_cons (c d : Char) (cs l : List Char)
    (hne : pyStripRight cs = d :: l) : pyStripRight (c :: cs) = c :: d :: l := by
  simp [pyStripRight, hne]

theorem splitNl_cons_of_ne (c : Char) (cs : List Char) (hn : ¬ (c = '\n'))
    (l0 : List Char) (ls : List (List Char)) (hsp : splitNl cs = l0 :: ls) :
    splitNl (c :: cs) = (c :: l0) :: ls := by
  simp [splitNl, hn, hsp]

theorem fence_prefix_pyStripRight (y : List Char) (h : fenceMarker <+: y) :
    fenceMarker <+: pyStripRight y := by
  obtain ⟨t, ht⟩ := h
  have hbt : pyWsChar btChar = false := by decide
  have hy : y = btChar :: btChar :: btChar :: t := by
    rw [← ht]; rfl
  subst hy
  obtain ⟨l1, h1⟩ := pyStripRight_cons_of_nonws btChar t hbt
  have h2 := pyStripRight_cons_cons btChar btChar (btChar :: t) l1 h1
  have h3 := pyStripRight_cons_cons btChar btChar (btChar :: btChar :: t)
    (btChar :: l1) h2
  rw [h3]
  exact ⟨l1, rfl⟩

theorem fence_prefix_line (s : List Char)
    (h : fenceMarker <+: (s.dropWhile pyWsChar)) :
    ∃ l, l ∈ splitNl s ∧ fenceMarker <+: (l.dropWhile pyWsChar) := by
  induction s with
  | nil =>
    rw [List.dropWhile_nil] at h
    exact absurd (List.prefix_nil.mp h) (by decide)
  | cons c cs ih =>
    by_cases hw : pyWsChar c = true
    · rw [List.dropWhile_cons, if_pos hw] at h
      by_cases hn : c = '\n'
      · subst hn
        obtain ⟨l, hl, hlp⟩ := ih h
        exact ⟨l, by simp [splitNl, hl], hlp⟩
      · obtain ⟨l, hl, hlp⟩ := ih h
        obtain ⟨l0, ls, hsp⟩ := List.exists_cons_of_ne_nil (splitNl_ne_nil cs)
        have hcs : splitNl (c :: cs) = (c :: l0) :: ls := by
          simp [splitNl, hn, hsp]
        rw [hsp] at hl
        rcases List.mem_cons.mp hl with rfl | hmem
        · refine ⟨c :: l, by rw [hcs]; exact List.mem_cons_self _ _, ?_⟩
          rw [List.dropWhile_cons, if_pos hw]
          exact hlp
        · exact ⟨l, by rw [hcs]; exact List.mem_cons_of_mem _ hmem, hlp⟩
    · rw [List.dropWhile_cons, if_neg hw] at h
      obtain ⟨t, ht⟩ := h
      have hct : btChar :: btChar :: btChar :: t = c :: cs := ht
      have hc : btChar = c := (List.cons.injEq _ _ _ _).mp hct |>.1
      have hcs2 : btChar :: btChar :: t = cs := (List.cons.injEq _ _ _ _).mp hct |>.2
      subst hc
      subst hcs2
      have hn : ¬ (btChar = '\n') := by decide
      obtain ⟨l2, ls2, hsp⟩ := List.exists_cons_of_ne_nil (splitNl_ne_nil t)
      have h1 : splitNl (btChar :: t) = (btChar :: l2) :: ls2 :=
        splitNl_cons_of_ne _ _ hn _ _ hsp
      have h2 : splitNl (btChar :: btChar :: t) = (btChar :: btChar :: l2) :: ls2 :=
        splitNl_cons_of_ne _ _ hn _ _ h1
      have h3 : splitNl (btChar :: btChar :: btChar :: t) =
          (btChar :: btChar :: btChar :: l2) :: ls2 :=
        splitNl_cons_of_ne _ _ hn _ _ h2
      refine ⟨btChar :: btChar :: btChar :: l2,
        by rw [h3]; exact List.mem_cons_self _ _, ?_⟩
      rw [List.dropWhile_cons, if_neg (by decide)]
      exact ⟨l2, rfl⟩

/-- If no line of `s` is a fence line, then `s` itself does not strip to a
string starting with the fence marker. -/
theorem no_fence_lines_strip (s : List Char)
    (h : ∀ l ∈ splitNl s, isFenceLine l = false) : isFenceLine s = false := by
  by_contra hh
  have ht : fenceMarker.isPrefixOf (pyStrip s) = true := by
    revert hh
    unfold isFenceLine
    cases fenceMarker.isPrefixOf (pyStrip s) <;> simp
  have hp : fenceMarker <+: pyStrip s := List.isPrefixOf_iff_prefix.mp ht
  have hp2 : fenceMarker <+: (s.dropWhile pyWsChar) := by
    unfold pyStrip at hp
    exact hp.trans (pyStripRight_prefix_self _)
  obtain ⟨l, hl, hlp⟩ := fence_prefix_line s hp2
  have hfl : fenceMarker <+: pyStrip l := fence_prefix_pyStripRight _ hlp
  have : isFenceLine l = true := by
    unfold isFenceLine
    exact List.isPrefixOf_iff_prefix.mpr hfl
  rw [h l hl] at this
  exact Bool.false_ne_true this

theorem pyStrip_fenceWrap (s : List Char) : pyStrip (fenceWrap s) = fenceWrap s := by
  have hbt : pyWsChar btChar = false := by decide
  have hshape : fenceWrap s =
      btChar :: (([btChar, btChar] ++ "json".data ++ '\n' ::
        (s ++ ['\n', btChar, btChar])) ++ [btChar]) := by
    simp [fenceWrap, fenceMarker]
  rw [hshape]
  unfold pyStrip
  rw [List.dropWhile_cons, if_neg (by decide)]
  rw [show btChar :: (([btChar, btChar] ++ "json".data ++ '\n' ::
      (s ++ ['\n', btChar, btChar])) ++ [btChar]) =
    (btChar :: ([btChar, btChar] ++ "json".data ++ '\n' ::
      (s ++ ['\n', btChar, btChar]))) ++ [btChar] from rfl]
  exact pyStripRight_append_nonws _ _ hbt

/-! ### C9: fence-wrapping invariance of the response cleaner -/

/-- C9. For every model response none of whose lines strips to a string
beginning with three backticks (every valid JSON response is such), wrapping
the response in a markdown code fence does not change the output of the
response cleaner, hence a fenced response JSON-decodes to the same
structured value as its unwrapped equivalent. -/
theorem cleanJsonResponse_fence_invariant (s : List Char)
    (h : ∀ l ∈ splitNl s, isFenceLine l = false) :
    cleanJsonResponse (fenceWrap s) = cleanJsonResponse s := by
  have hnf : isFenceLine s = false := no_fence_lines_strip s h
  have hrhs : cleanJsonResponse s = pyStrip s := by
    have hnfB : fenceMarker.isPrefixOf (pyStrip s) = false := hnf
    simp only [cleanJsonResponse]
    rw [hnfB]
    simp
  have hpref : fenceMarker.isPrefixOf (fenceWrap s) = true := by
    rw [List.isPrefixOf_iff_prefix]
    rw [show fenceWrap s = fenceMarker ++
      ("json".data ++ '\n' :: (s ++ '\n' :: fenceMarker)) from by
        simp [fenceWrap]]
    exact List.prefix_append _ _
  have hsplit : splitNl (fenceWrap s) =
      (fenceMarker ++ "json".data) :: (splitNl s ++ [fenceMarker]) := by
    unfold fenceWrap
    rw [splitNl_append_newline, splitNl_append_newline]
    rw [show splitNl (fenceMarker ++ "json".data) =
      [fenceMarker ++ "json".data] from by decide]
    rw [show splitNl fenceMarker = [fenceMarker] from by decide]
    simp
  rw [hrhs]
  simp only [cleanJsonResponse]
  rw [pyStrip_fenceWrap, hpref, if_pos rfl]
  rw [hsplit]
  have hfirst : (!(isFenceLine (fenceMarker ++ "json".data))) = false := by decide
  rw [List.filter_cons, hfirst]
  simp only [Bool.false_eq_true, if_false]
  rw [List.filter_append]
  rw [show List.filter (fun l => !(isFenceLine l)) [fenceMarker] = [] from by decide]
  rw [List.filter_eq_self.mpr (fun a ha => by simp [h a ha])]
  rw [List.append_nil, joinNl_splitNl]

/-- Witness for C9 at the concrete response `[1, 2]`. -/
theorem cleanJsonResponse_fence_invariant_witness :
    cleanJsonResponse (fenceWrap "[1, 2]".data) = cleanJsonResponse "[1, 2]".data :=
  cleanJsonResponse_fence_invariant "[1, 2]".data (by decide)

end ManheimScraper
